import Mathlib

/-!
Verification model of the `rhai_dart` Rust FFI bridge (src/rust/src).

The Rust sources are shallowly embedded: each FFI entry point becomes a pure
Lean function over an explicit state record mirroring the crate's global
registries (lazy_static HashMaps / VecDeque) and thread-local flags.  C
pointers that merely carry strings across the boundary are modelled as the
strings themselves (a null pointer as `Option.none`); the serde_json text
layer, which round-trips the parse trees used here exactly, is modelled as
the identity on parse trees.
-/

namespace RhaiDart

/-- Model of an `f64` as observed by `values.rs`: the code only distinguishes
+infinity, -infinity, NaN, and finite values (`is_infinite`, `is_sign_positive`,
`is_nan`).  A finite double is identified by its exact rational value, which
serde_json serialization round-trips exactly. -/
inductive F64 where
  | finite (q : ℚ)
  | inf
  | neginf
  | nan
deriving DecidableEq, Repr

/-- A serde_json `Number`: `as_i64` succeeds exactly on the integer-backed
variant; a float-backed number only answers `as_f64`. -/
inductive JNum where
  | int (i : ℤ)
  | float (q : ℚ)
deriving DecidableEq, Repr

/-- A serde_json `Value` restricted to what the bridge produces and consumes.
Objects keep insertion order, as `serde_json::Map` iteration does here. -/
inductive JsonValue where
  | null
  | bool (b : Bool)
  | num (n : JNum)
  | str (s : String)
  | arr (xs : List JsonValue)
  | obj (fields : List (String × JsonValue))
deriving Repr

/-- A Rhai `Dynamic` restricted to the JSON-compatible wire union handled by
`values.rs`: unit/null, bool, int, float, string, array, string-keyed map.
Other `Dynamic` variants hit the `Unsupported Rhai type` error branch of the
source and are outside the wire union, so they are excluded by construction. -/
inductive RhaiValue where
  | unit
  | boolean (b : Bool)
  | int (i : ℤ)
  | float (f : F64)
  | str (s : String)
  | array (xs : List RhaiValue)
  | map (fields : List (String × RhaiValue))
deriving Repr

mutual
/-- `dynamic_to_json_value` from values.rs, on the wire union (where it never
errs): unit→null, bool, int, float with the sentinel string encodings
`__INFINITY__` / `__NEG_INFINITY__` / `__NAN__` for the non-finite values,
string, array and map recursively. -/
def dynamic_to_json_value : RhaiValue → JsonValue
  | .unit => .null
  | .boolean b => .bool b
  | .int i => .num (.int i)
  | .float .inf => .str "__INFINITY__"
  | .float .neginf => .str "__NEG_INFINITY__"
  | .float .nan => .str "__NAN__"
  | .float (.finite q) => .num (.float q)
  | .str s => .str s
  | .array xs => .arr (dynamic_to_json_list xs)
  | .map fields => .obj (dynamic_to_json_fields fields)

/-- The `arr.iter().map(dynamic_to_json_value)` loop of values.rs. -/
def dynamic_to_json_list : List RhaiValue → List JsonValue
  | [] => []
  | x :: xs => dynamic_to_json_value x :: dynamic_to_json_list xs

/-- The `map.iter()` loop of values.rs building the JSON object in order. -/
def dynamic_to_json_fields : List (String × RhaiValue) → List (String × JsonValue)
  | [] => []
  | (k, v) :: fs => (k, dynamic_to_json_value v) :: dynamic_to_json_fields fs
end

mutual
/-- `json_value_to_dynamic` from values.rs: null→unit, bool, integer-backed
numbers→int, float-backed numbers→float, strings decoding the three sentinel
encodings back to non-finite floats, arrays and objects recursively. -/
def json_value_to_dynamic : JsonValue → RhaiValue
  | .null => .unit
  | .bool b => .boolean b
  | .num (.int i) => .int i
  | .num (.float q) => .float (.finite q)
  | .str s =>
      if s = "__INFINITY__" then .float .inf
      else if s = "__NEG_INFINITY__" then .float .neginf
      else if s = "__NAN__" then .float .nan
      else .str s
  | .arr xs => .array (json_to_dynamic_list xs)
  | .obj fields => .map (json_to_dynamic_fields fields)

/-- The array element loop of `json_value_to_dynamic`. -/
def json_to_dynamic_list : List JsonValue → List RhaiValue
  | [] => []
  | x :: xs => json_value_to_dynamic x :: json_to_dynamic_list xs

/-- The object entry loop of `json_value_to_dynamic`. -/
def json_to_dynamic_fields : List (String × JsonValue) → List (String × RhaiValue)
  | [] => []
  | (k, v) :: fs => (k, json_value_to_dynamic v) :: json_to_dynamic_fields fs
end

/-- `rhai_dynamic_to_json` composed with `json_to_rhai_dynamic` of values.rs.
The intermediate JSON text produced by `serde_json::to_string` parses back to
the identical `serde_json::Value` for every value in the image of
`dynamic_to_json_value` (integers stay integer-backed, finite floats print a
shortest decimal form that reparses float-backed and exact), so the text
layer is the identity on the parse tree and the round trip is this
composition. -/
def wire_roundtrip (v : RhaiValue) : RhaiValue :=
  json_value_to_dynamic (dynamic_to_json_value v)

/-- True when `s` is one of the three sentinel string encodings of values.rs. -/
def isSentinel (s : String) : Bool :=
  s = "__INFINITY__" || s = "__NEG_INFINITY__" || s = "__NAN__"

mutual
/-- A wire value none of whose string payloads collides with a sentinel
encoding (map keys are never decoded, so they are unconstrained). -/
def sentinelFree : RhaiValue → Bool
  | .str s => !isSentinel s
  | .array xs => sentinelFreeList xs
  | .map fields => sentinelFreeFields fields
  | _ => true

/-- `sentinelFree` on array elements. -/
def sentinelFreeList : List RhaiValue → Bool
  | [] => true
  | x :: xs => sentinelFree x && sentinelFreeList xs

/-- `sentinelFree` on map entries. -/
def sentinelFreeFields : List (String × RhaiValue) → Bool
  | [] => true
  | (_, v) :: fs => sentinelFree v && sentinelFreeFields fs
end

/-! ## Global registries and thread-local flags

`async_eval.rs` and `functions.rs` keep four process-wide tables
(`PENDING_FUNCTION_REQUESTS`, `FUNCTION_RESPONSE_CHANNELS`,
`ASYNC_EVAL_RESULTS`, `PENDING_FUTURES`) plus two atomic id counters.  The
HashMaps are modelled as association lists with unique keys: `insertA`
erases any old binding and prepends the new one, `removeA` erases the
binding.  The code never observes HashMap iteration order (only `get`,
`insert`, `remove` are used), so this model is faithful.  A
`tokio::sync::oneshot::Sender<String>` entry is modelled by the one bit the
code can observe of it: whether the receiving end is still alive, i.e.
whether `send` will succeed. -/

/-- Association-list lookup, modelling `HashMap::get`. -/
def lookupA {α : Type} : List (Int × α) → Int → Option α
  | [], _ => none
  | (k, v) :: rest, key => if k = key then some v else lookupA rest key

/-- Modelling `HashMap::remove`: erase the binding of `key`. -/
def removeA {α : Type} (m : List (Int × α)) (key : Int) : List (Int × α) :=
  m.filter (fun p => !(p.1 == key))

/-- Modelling `HashMap::insert`: bind `key` to `v`, replacing any old binding. -/
def insertA {α : Type} (m : List (Int × α)) (key : Int) (v : α) : List (Int × α) :=
  (key, v) :: removeA m key

/-- `FunctionCallRequest` from async_eval.rs. -/
structure FunctionCallRequest where
  exec_id : Int
  function_name : String
  args_json : String
deriving Repr, DecidableEq

/-- `AsyncEvalResult` from async_eval.rs. -/
inductive AsyncEvalResult where
  | inProgress
  | success (json : String)
  | error (msg : String)
deriving Repr, DecidableEq

/-- The crate's global mutable state: the four lazy_static registries and
the two atomic id counters (`NEXT_REQUEST_ID`, `NEXT_ASYNC_EVAL_ID`;
`NEXT_FUTURE_ID` is unused by the paths modelled here since pending future
ids come from the Dart response).  `pendingFunctionRequests` is the
`VecDeque`, front at the head of the list. -/
structure GlobalState where
  pendingFunctionRequests : List FunctionCallRequest
  functionResponseChannels : List (Int × Bool)
  asyncEvalResults : List (Int × AsyncEvalResult)
  pendingFutures : List (Int × Bool)
  nextRequestId : Int
  nextAsyncEvalId : Int
deriving Repr, DecidableEq

/-! ## async_eval.rs entry points and the background eval thread -/

/-- The registration part of `rhai_eval_async_start` (async_eval.rs:309-395)
on the validated path (non-null engine/script/out pointers, UTF-8 script;
the guard failures return -1 without touching the registries): allocate the
next eval id, record `InProgress`, spawn the thread, and hand the id back
through `eval_id_out` (returned here alongside the new state; the C return
code of this path is 0).  The spawned thread body is modelled separately by
`async_eval_thread_finish`, applied when that thread terminates. -/
def rhai_eval_async_start (st : GlobalState) : GlobalState × Int :=
  let eval_id := st.nextAsyncEvalId
  ({ st with
      nextAsyncEvalId := eval_id + 1,
      asyncEvalResults := insertA st.asyncEvalResults eval_id .inProgress },
   eval_id)

/-- How the background thread of `rhai_eval_async_start` terminates:
`engine_arc.eval` returns Ok and `rhai_dynamic_to_json` succeeds; the JSON
conversion fails; the eval returns Err (formatted by `format_rhai_error`);
or the thread unwinds abnormally — there is no `catch_unwind` inside the
spawned closure, so an unwinding thread dies before the terminal write. -/
inductive EvalThreadOutcome where
  | ok (json : String)
  | jsonErr (msg : String)
  | evalErr (formatted_msg : String)
  | panicked
deriving Repr, DecidableEq

/-- The tail of the spawned closure in `rhai_eval_async_start`
(async_eval.rs:358-387): store the terminal result in the registry with an
unconditional `results.insert(eval_id, async_result)`.  A panicking thread
performs no write at all. -/
def async_eval_thread_finish (eval_id : Int) (outcome : EvalThreadOutcome)
    (st : GlobalState) : GlobalState :=
  match outcome with
  | .ok json =>
      { st with asyncEvalResults := insertA st.asyncEvalResults eval_id (.success json) }
  | .jsonErr msg =>
      let r := AsyncEvalResult.error ("Failed to convert result to JSON: " ++ msg)
      { st with asyncEvalResults := insertA st.asyncEvalResults eval_id r }
  | .evalErr msg =>
      { st with asyncEvalResults := insertA st.asyncEvalResults eval_id (.error msg) }
  | .panicked => st

/-- What `rhai_eval_async_poll` writes back: the C return code, the value
stored through `status_out` (0 = in progress, 1 = success, 2 = error; `none`
when the out-parameter is left untouched, as on an unknown id), and the
string stored through `result_out` (`none` models the null pointer or the
out-parameter left unwritten). -/
structure PollOutput where
  ret : Int
  status : Option Int
  result : Option String
deriving Repr, DecidableEq

/-- Whether `CString::new` on this string fails: it does exactly when the
string contains an interior NUL byte. -/
def containsNul (s : String) : Bool :=
  s.data.any (fun c => c == Char.ofNat 0)

/-- `rhai_eval_async_poll` (async_eval.rs:416-498) on the validated path:
look up the eval id (unknown id sets "Invalid eval ID" and returns -1); an
`InProgress` entry reports status 0 and stays.  For a terminal entry the
status code is written through `status_out` first, then the payload goes
through `CString::new`: when the payload contains an interior NUL byte the
conversion fails and the function returns -1 early, leaving the entry in
the registry (reachable for Error messages — a script can throw a string
decoded from host JSON "\u0000" and `format_rhai_error` embeds it; Success
payloads are serde_json output, which escapes control characters and never
holds a raw NUL); otherwise the payload is written through `result_out` and
the entry is removed. -/
def rhai_eval_async_poll (eval_id : Int) (st : GlobalState) :
    GlobalState × PollOutput :=
  match lookupA st.asyncEvalResults eval_id with
  | none => (st, { ret := -1, status := none, result := none })
  | some .inProgress => (st, { ret := 0, status := some 0, result := none })
  | some (.success json) =>
      if containsNul json then
        (st, { ret := -1, status := some 1, result := none })
      else
        ({ st with asyncEvalResults := removeA st.asyncEvalResults eval_id },
         { ret := 0, status := some 1, result := some json })
  | some (.error msg) =>
      if containsNul msg then
        (st, { ret := -1, status := some 2, result := none })
      else
        ({ st with asyncEvalResults := removeA st.asyncEvalResults eval_id },
         { ret := 0, status := some 2, result := some msg })

/-- `rhai_eval_async_cancel` (async_eval.rs:513-523): remove the bookkeeping
entry, returning 0 when it existed and -1 ("Invalid eval ID") otherwise.
The background thread is not signalled in any way. -/
def rhai_eval_async_cancel (eval_id : Int) (st : GlobalState) : GlobalState × Int :=
  match lookupA st.asyncEvalResults eval_id with
  | some _ => ({ st with asyncEvalResults := removeA st.asyncEvalResults eval_id }, 0)
  | none => (st, -1)

/-- The enqueue half of `request_dart_function_execution`
(async_eval.rs:90-114): take the next request id from `NEXT_REQUEST_ID`,
store a fresh oneshot response channel (receiver alive and waiting), and
`push_back` the request onto the FIFO queue. -/
def request_dart_function_execution_enqueue (function_name args_json : String)
    (st : GlobalState) : GlobalState × Int :=
  let request_id := st.nextRequestId
  ({ st with
      nextRequestId := request_id + 1,
      functionResponseChannels := insertA st.functionResponseChannels request_id true,
      pendingFunctionRequests :=
        st.pendingFunctionRequests ++
          [{ exec_id := request_id, function_name := function_name,
             args_json := args_json }] },
   request_id)

/-- The timeout arm of `request_dart_function_execution`
(async_eval.rs:117-126): after the 30-second `tokio::time::timeout` elapses
the response channel is removed and the waiter gets this error string. -/
def request_dart_function_execution_timeout (request_id : Int)
    (st : GlobalState) : GlobalState × String :=
  ({ st with
      functionResponseChannels := removeA st.functionResponseChannels request_id },
   "Function call timed out after 30 seconds")

/-- `rhai_get_pending_function_request` (async_eval.rs:148-222) on the
validated path (non-null out pointers; function names and argument JSON are
NUL-free so the `CString::new` failure arms are unreachable): `pop_front`
the queue, returning 0 with the request, or -1 when the queue is empty. -/
def rhai_get_pending_function_request (st : GlobalState) :
    GlobalState × Int × Option FunctionCallRequest :=
  match st.pendingFunctionRequests with
  | [] => (st, (-1, none))
  | req :: rest => ({ st with pendingFunctionRequests := rest }, (0, some req))

/-- `rhai_provide_function_result` (async_eval.rs:243-288).  `result_json`
is the C string argument, `none` modelling a null pointer (rejected before
the registry is touched).  Otherwise the response channel is removed from
the registry and the result is sent: 0 when the waiting receiver accepts
it, -1 when the receiver was already dropped, -1 ("Function request ID not
found") when the id has no channel. -/
def rhai_provide_function_result (exec_id : Int) (result_json : Option String)
    (st : GlobalState) : GlobalState × Int :=
  match result_json with
  | none => (st, -1)
  | some _ =>
      let sender := lookupA st.functionResponseChannels exec_id
      let st1 := { st with
        functionResponseChannels := removeA st.functionResponseChannels exec_id }
      match sender with
      | some receiver_waiting => if receiver_waiting then (st1, 0) else (st1, -1)
      | none => (st1, -1)

/-! ## functions.rs: pending futures, thread-local flags, sync eval -/

/-- The registration step of the "pending" arm of
`invoke_dart_callback_async` (functions.rs:238-254): store the oneshot
sender for the future id taken from the Dart response, receiver waiting. -/
def invoke_dart_callback_async_register (future_id : Int)
    (st : GlobalState) : GlobalState :=
  { st with pendingFutures := insertA st.pendingFutures future_id true }

/-- The timeout arm of the "pending" wait in `invoke_dart_callback_async`
(functions.rs:270-277): the entry is removed from `PENDING_FUTURES`, then
the timeout error surfaces to the waiting script call. -/
def invoke_dart_callback_async_timeout (future_id : Int) (timeout_secs : Nat)
    (st : GlobalState) : GlobalState × String :=
  ({ st with pendingFutures := removeA st.pendingFutures future_id },
   "Async operation timed out after " ++ toString timeout_secs ++ " seconds")

/-- `rhai_complete_future` (functions.rs:313-365).  `result_json` is the C
string argument, `none` modelling a null pointer (rejected before the
registry is touched).  Otherwise `registry.remove(&future_id)` consumes the
entry, then the result is sent through the channel: 0 on success, -1 when
the receiver was dropped, -1 ("Future ID not found in registry") when the
id has no entry. -/
def rhai_complete_future (future_id : Int) (result_json : Option String)
    (st : GlobalState) : GlobalState × Int :=
  match result_json with
  | none => (st, -1)
  | some _ =>
      let sender := lookupA st.pendingFutures future_id
      let st1 := { st with pendingFutures := removeA st.pendingFutures future_id }
      match sender with
      | some receiver_waiting => if receiver_waiting then (st1, 0) else (st1, -1)
      | none => (st1, -1)

/-- The two thread-local `Cell<bool>` flags of functions.rs:
`ASYNC_FUNCTION_INVOKED` and `IN_ASYNC_EVAL`. -/
structure ThreadState where
  asyncFunctionInvoked : Bool
  inAsyncEval : Bool
deriving Repr, DecidableEq

/-- `mark_async_invoked` (functions.rs:115-117). -/
def mark_async_invoked (ts : ThreadState) : ThreadState :=
  { ts with asyncFunctionInvoked := true }

/-- `check_and_clear_async_flag` (functions.rs:123-129): read the flag and
clear it. -/
def check_and_clear_async_flag (ts : ThreadState) : Bool × ThreadState :=
  (ts.asyncFunctionInvoked, { ts with asyncFunctionInvoked := false })

/-- `set_async_eval_mode` (functions.rs:143-145). -/
def set_async_eval_mode (enabled : Bool) (ts : ThreadState) : ThreadState :=
  { ts with inAsyncEval := enabled }

/-- `CallbackResponse` (functions.rs:45-65), the parsed JSON reply of a Dart
callback.  `value_json` is a raw JSON string in the source; it is modelled
by its parse tree, as the conversion functions only see the parsed form. -/
structure CallbackResponse where
  status : String
  future_id : Option Int
  value : Option JsonValue
  value_json : Option JsonValue
  error : Option String

/-- `invoke_dart_callback_sync` (functions.rs:555-634) after the FFI call
and JSON parse succeeded (C-string creation, a null or non-UTF-8 callback
result, and an unparsable response each yield an error without touching the
flags; those guard arms are not modelled).  On "success" the value is
converted; on "pending" the thread-local misuse flag is set and the call
fails at once — nothing blocks; on "error" and on unknown status tags an
error is propagated. -/
def invoke_dart_callback_sync (response : CallbackResponse) (ts : ThreadState) :
    ThreadState × Except String RhaiValue :=
  if response.status = "success" then
    let value_json :=
      match response.value with
      | some v => v
      | none =>
          match response.value_json with
          | some vj => vj
          | none => JsonValue.null
    (ts, .ok (json_value_to_dynamic value_json))
  else if response.status = "pending" then
    (mark_async_invoked ts,
     .error "Async function called in sync eval - this error should be caught by eval()")
  else if response.status = "error" then
    (ts, .error ("Callback error: " ++ response.error.getD "Unknown error"))
  else
    (ts, .error ("Unknown callback status: " ++ response.status))

/-- The outcome of the opaque `rhai_engine.eval(script_str)` call: a final
value, or an error already formatted by `format_rhai_error`.  The script may
itself catch errors raised by callbacks, so the outcome is independent of
the callback responses observed along the way. -/
inductive EngineOutcome where
  | ok (value : RhaiValue)
  | err (formatted_msg : String)

/-- What `rhai_eval` hands back: the C return code, the thread-local last
error, and the JSON result written through `result_out` (by parse tree; the
text layer is the identity on it). -/
structure EvalOutput where
  ret : Int
  lastError : Option String
  result : Option JsonValue

/-- The misuse message set by `rhai_eval` (engine.rs:283). -/
def misuseErrorMsg : String :=
  "Script attempted to call async functions. Use evalAsync() instead of eval() for scripts with async functions."

/-- The effect on the thread-local flags of the callbacks the engine invokes
while evaluating the script: each registered-function call site reaches
`invoke_dart_callback_sync` (sync mode), in script order. -/
def run_script_callbacks (responses : List CallbackResponse) (ts : ThreadState) :
    ThreadState :=
  responses.foldl (fun t r => (invoke_dart_callback_sync r t).1) ts

/-- `rhai_eval` (engine.rs:238-320) on the validated path, with the opaque
engine call represented by the list of callback responses it triggers plus
its final outcome: evaluate, then `check_and_clear_async_flag`; if the flag
was set, fail with -1 and the misuse message regardless of the engine
outcome; otherwise convert an Ok value with `rhai_dynamic_to_json` (total on
wire values) or set the formatted error and return -1. -/
def rhai_eval (responses : List CallbackResponse) (outcome : EngineOutcome)
    (ts : ThreadState) : ThreadState × EvalOutput :=
  let ts1 := run_script_callbacks responses ts
  let flagged := check_and_clear_async_flag ts1
  if flagged.1 then
    (flagged.2, { ret := -1, lastError := some misuseErrorMsg, result := none })
  else
    match outcome with
    | .ok v =>
        (flagged.2,
         { ret := 0, lastError := none, result := some (dynamic_to_json_value v) })
    | .err msg => (flagged.2, { ret := -1, lastError := some msg, result := none })

/-- The `catch_panic!` macro of macros.rs (lines 29-52): run the FFI body; a
normal return passes through with no error recorded by the macro itself, an
unwinding body (modelled as the `Except.error` case, carrying the message
extracted from the payload) is turned into return code -1 with the message
stored as the last error.  This is the subsystem boundary: no unwinding
crosses it. -/
def catch_panic (body : Except String Int) : Int × Option String :=
  match body with
  | .ok ret => (ret, none)
  | .error panic_msg => (-1, some ("Panic in FFI call: " ++ panic_msg))

/-- The status code `rhai_eval_async_poll` writes through `status_out`
(async_eval.rs:409: 0 = in_progress, 1 = success, 2 = error). -/
def pollStatusCode : AsyncEvalResult → Int
  | .inProgress => 0
  | .success _ => 1
  | .error _ => 2

/-- The string `rhai_eval_async_poll` writes through `result_out` (null for
an in-progress evaluation). -/
def pollPayload : AsyncEvalResult → Option String
  | .inProgress => none
  | .success json => some json
  | .error msg => some msg

/-- Whether the terminal payload survives `CString::new` in
`rhai_eval_async_poll`, i.e. holds no interior NUL byte.  Always true of
Success payloads in reachable states (serde_json output); an Error message
can violate it. -/
def terminalPayloadNulFree : AsyncEvalResult → Bool
  | .inProgress => true
  | .success json => !containsNul json
  | .error msg => !containsNul msg

/-- The host loop draining the queue: call
`rhai_get_pending_function_request` repeatedly until it reports -1 (no
pending requests), collecting the surfaced requests in order.  Fuel is the
queue length, which each successful dequeue decreases. -/
def drainQueue (st : GlobalState) : List FunctionCallRequest :=
  go st.pendingFunctionRequests.length st
where
  /-- Fuelled iteration of the non-blocking dequeue. -/
  go : Nat → GlobalState → List FunctionCallRequest
  | 0, _ => []
  | Nat.succ n, s =>
      match rhai_get_pending_function_request s with
      | (s1, (_, some req)) => req :: go n s1
      | (_, (_, none)) => []

mutual
/-- Serialize-then-deserialize is the identity on every wire value whose
string payloads avoid the sentinel encodings. -/
theorem roundtrip_of_sentinelFree (v : RhaiValue) (h : sentinelFree v = true) :
    json_value_to_dynamic (dynamic_to_json_value v) = v := by
  match v with
  | .unit => rfl
  | .boolean b => rfl
  | .int i => rfl
  | .float .inf => rfl
  | .float .neginf => rfl
  | .float .nan => rfl
  | .float (.finite q) => rfl
  | .str s =>
      simp only [sentinelFree, isSentinel, Bool.not_eq_true', Bool.or_eq_false_iff,
        decide_eq_false_iff_not] at h
      simp [dynamic_to_json_value, json_value_to_dynamic, h.1.1, h.1.2, h.2]
  | .array xs =>
      simp only [sentinelFree] at h
      simp only [dynamic_to_json_value, json_value_to_dynamic,
        roundtrip_list_of_sentinelFree xs h]
  | .map fields =>
      simp only [sentinelFree] at h
      simp only [dynamic_to_json_value, json_value_to_dynamic,
        roundtrip_fields_of_sentinelFree fields h]

/-- Round trip on array elements. -/
theorem roundtrip_list_of_sentinelFree (xs : List RhaiValue)
    (h : sentinelFreeList xs = true) :
    json_to_dynamic_list (dynamic_to_json_list xs) = xs := by
  match xs with
  | [] => rfl
  | x :: rest =>
      simp only [sentinelFreeList, Bool.and_eq_true] at h
      simp only [dynamic_to_json_list, json_to_dynamic_list,
        roundtrip_of_sentinelFree x h.1, roundtrip_list_of_sentinelFree rest h.2]

/-- Round trip on map entries. -/
theorem roundtrip_fields_of_sentinelFree (fields : List (String × RhaiValue))
    (h : sentinelFreeFields fields = true) :
    json_to_dynamic_fields (dynamic_to_json_fields fields) = fields := by
  match fields with
  | [] => rfl
  | (k, v) :: rest =>
      simp only [sentinelFreeFields, Bool.and_eq_true] at h
      simp only [dynamic_to_json_fields, json_to_dynamic_fields,
        roundtrip_of_sentinelFree v h.1, roundtrip_fields_of_sentinelFree rest h.2]
end

/-! ## Helper lemmas about the registry model -/

/-- Looking up a key just removed yields nothing. -/
theorem lookupA_removeA_self {α : Type} (m : List (Int × α)) (key : Int) :
    lookupA (removeA m key) key = none := by
  induction m with
  | nil => rfl
  | cons p rest ih =>
      rcases p with ⟨k, v⟩
      by_cases h : k = key
      · simpa [removeA, List.filter_cons, h] using ih
      · simpa [removeA, List.filter_cons, h, lookupA] using ih

/-- Removal leaves other keys untouched. -/
theorem lookupA_removeA_ne {α : Type} (m : List (Int × α)) (key j : Int)
    (hne : j ≠ key) : lookupA (removeA m key) j = lookupA m j := by
  induction m with
  | nil => rfl
  | cons p rest ih =>
      rcases p with ⟨k, v⟩
      by_cases h : k = key
      · subst h
        simpa [removeA, List.filter_cons, lookupA, Ne.symm hne] using ih
      · by_cases h2 : k = j
        · subst h2
          simp [removeA, List.filter_cons, h, lookupA, hne]
        · have hih := ih
          simp [removeA, List.filter_cons, h, lookupA, h2] at hih ⊢
          exact hih

/-- Looking up a key just inserted yields the inserted value. -/
theorem lookupA_insertA_self {α : Type} (m : List (Int × α)) (key : Int) (v : α) :
    lookupA (insertA m key v) key = some v := by
  simp [insertA, lookupA]

/-- Insertion leaves other keys untouched. -/
theorem lookupA_insertA_ne {α : Type} (m : List (Int × α)) (key j : Int) (v : α)
    (hne : j ≠ key) : lookupA (insertA m key v) j = lookupA m j := by
  simp [insertA, lookupA, Ne.symm hne, lookupA_removeA_ne m key j hne]

/-- One sync callback leaves the misuse flag set exactly when it was already
set or the response reported "pending". -/
theorem invoke_sync_flag (r : CallbackResponse) (ts : ThreadState) :
    ((invoke_dart_callback_sync r ts).1).asyncFunctionInvoked
      = (ts.asyncFunctionInvoked || decide (r.status = "pending")) := by
  unfold invoke_dart_callback_sync mark_async_invoked
  by_cases h1 : r.status = "success"
  · have : r.status ≠ "pending" := by rw [h1]; decide
    simp [h1, this]
  · by_cases h2 : r.status = "pending"
    · simp [h1, h2]
    · by_cases h3 : r.status = "error" <;> simp [h1, h2, h3]

/-- Running the script's callbacks sets the misuse flag exactly when it was
already set or some callback reported "pending". -/
theorem run_script_callbacks_flag (rs : List CallbackResponse) (ts : ThreadState) :
    (run_script_callbacks rs ts).asyncFunctionInvoked
      = (ts.asyncFunctionInvoked || rs.any (fun r => decide (r.status = "pending"))) := by
  induction rs generalizing ts with
  | nil => simp [run_script_callbacks]
  | cons r rest ih =>
      have hstep : run_script_callbacks (r :: rest) ts
          = run_script_callbacks rest ((invoke_dart_callback_sync r ts).1) := rfl
      rw [hstep, ih, invoke_sync_flag]
      simp [Bool.or_assoc]

/-- `rhai_eval` always leaves the thread-local misuse flag cleared. -/
theorem rhai_eval_clears_flag (rs : List CallbackResponse) (outcome : EngineOutcome)
    (ts : ThreadState) :
    ((rhai_eval rs outcome ts).1).asyncFunctionInvoked = false := by
  unfold rhai_eval check_and_clear_async_flag
  by_cases h : (run_script_callbacks rs ts).asyncFunctionInvoked
  · simp [h]
  · cases outcome <;> simp [h]

/-- Draining surfaces exactly the queued requests, in queue order. -/
theorem drainQueue_eq (st : GlobalState) :
    drainQueue st = st.pendingFunctionRequests := by
  suffices h : ∀ (n : Nat) (s : GlobalState), s.pendingFunctionRequests.length = n →
      drainQueue.go n s = s.pendingFunctionRequests from
    h _ st rfl
  intro n
  induction n with
  | zero =>
      intro s hs
      have hnil : s.pendingFunctionRequests = [] := List.length_eq_zero.mp hs
      simp [drainQueue.go, hnil]
  | succ n ih =>
      intro s hs
      match hq : s.pendingFunctionRequests with
      | [] => rw [hq] at hs; simp at hs
      | req :: rest =>
          have hdq : rhai_get_pending_function_request s
              = ({ s with pendingFunctionRequests := rest }, (0, some req)) := by
            unfold rhai_get_pending_function_request
            rw [hq]
          have hlen : rest.length = n := by
            rw [hq] at hs; simpa using hs
          have h2 := ih { s with pendingFunctionRequests := rest } (by simpa using hlen)
          simp only [drainQueue.go, hdq]
          rw [h2]

/-! ## The claims -/

/-- Claim C1, evidence of the code bug: cancelling a running evaluation
returns Ok (0) and removes the bookkeeping entry, but when the background
thread later finishes, its unconditional `results.insert(eval_id, ...)`
re-creates the entry, so a later poll returns the terminal Success result
instead of the NotFound the claim (and the cancel doc comment, "just
discards the result") promises. -/
theorem c1_cancelled_eval_result_resurfaces :
    (rhai_eval_async_cancel 1 (rhai_eval_async_start ⟨[], [], [], [], 1, 1⟩).1).2 = 0 ∧
    lookupA (rhai_eval_async_cancel 1
        (rhai_eval_async_start ⟨[], [], [], [], 1, 1⟩).1).1.asyncEvalResults 1 = none ∧
    (rhai_eval_async_poll 1
        (async_eval_thread_finish 1 (.ok "42")
          (rhai_eval_async_cancel 1
            (rhai_eval_async_start ⟨[], [], [], [], 1, 1⟩).1).1)).2
      = { ret := 0, status := some 1, result := some "42" } := by
  decide

/-- Claim C2, counterexample: a background evaluation thread that terminates
abnormally (unwinds) performs no terminal write — the registry is untouched
and every later poll keeps reporting status 0 (InProgress), so the failure
is never converted into any of the defined error kinds. -/
theorem c2_thread_abnormal_termination_unreported :
    async_eval_thread_finish 1 .panicked
        (rhai_eval_async_start ⟨[], [], [], [], 1, 1⟩).1
      = (rhai_eval_async_start ⟨[], [], [], [], 1, 1⟩).1 ∧
    (rhai_eval_async_poll 1
        (async_eval_thread_finish 1 .panicked
          (rhai_eval_async_start ⟨[], [], [], [], 1, 1⟩).1)).2
      = { ret := 0, status := some 0, result := none } := by
  decide

/-- Claim C2 as amended: panics inside FFI entry points are caught by
`catch_panic` and converted into return code -1 with the message recorded,
and host protocol violations (unknown status tags) become ordinary call
errors, so the host dispatcher never receives an unhandled fault from an
entry point; but abnormal termination of a background evaluation thread is
not converted into an error kind — it performs no terminal write at all,
leaving the evaluation InProgress indefinitely. -/
theorem c2_faults_contained_at_ffi_boundary_only :
    (∀ msg : String,
        catch_panic (.error msg) = (-1, some ("Panic in FFI call: " ++ msg))) ∧
    (∀ ret : Int, catch_panic (.ok ret) = (ret, none)) ∧
    (∀ (r : CallbackResponse) (ts : ThreadState),
        r.status ≠ "success" → r.status ≠ "pending" → r.status ≠ "error" →
        (invoke_dart_callback_sync r ts).2
          = .error ("Unknown callback status: " ++ r.status)) ∧
    (∀ (eval_id : Int) (st : GlobalState),
        async_eval_thread_finish eval_id .panicked st = st) := by
  refine ⟨fun _ => rfl, fun _ => rfl, ?_, fun _ _ => rfl⟩
  intro r ts h1 h2 h3
  simp [invoke_dart_callback_sync, h1, h2, h3]

/-- Witness for the amended C2 at a concrete protocol violation. -/
theorem c2_faults_contained_at_ffi_boundary_only_witness :
    (invoke_dart_callback_sync
        { status := "bogus", future_id := none, value := none,
          value_json := none, error := none }
        { asyncFunctionInvoked := false, inAsyncEval := false }).2
      = .error ("Unknown callback status: " ++ "bogus") :=
  c2_faults_contained_at_ffi_boundary_only.2.2.1 _ _
    (by decide) (by decide) (by decide)

/-- Claim C3, counterexample: the plain string "__NAN__" is a wire value,
but serialize→deserialize turns it into the NaN float, which is not
observably equal to the original string. -/
theorem c3_sentinel_string_not_roundtripped :
    wire_roundtrip (.str "__NAN__") = .float .nan ∧
    RhaiValue.float .nan ≠ RhaiValue.str "__NAN__" :=
  ⟨rfl, by simp⟩

/-- Claim C3 as amended: every wire value none of whose string payloads
equals a sentinel encoding survives serialize→deserialize observably equal,
including +infinity, -infinity and NaN floats via their sentinel encodings
(NaN compares as the NaN sentinel). -/
theorem c3_roundtrip_on_sentinel_free_values (v : RhaiValue)
    (h : sentinelFree v = true) : wire_roundtrip v = v :=
  roundtrip_of_sentinelFree v h

/-- Witness for the amended C3 on a compound value containing NaN and
+infinity floats. -/
theorem c3_roundtrip_on_sentinel_free_values_witness :
    sentinelFree (.array [.int 3, .float .nan, .str "hi",
        .map [("k", .float .inf)], .unit, .boolean true]) = true ∧
    wire_roundtrip (.array [.int 3, .float .nan, .str "hi",
        .map [("k", .float .inf)], .unit, .boolean true])
      = .array [.int 3, .float .nan, .str "hi",
        .map [("k", .float .inf)], .unit, .boolean true] :=
  ⟨rfl, c3_roundtrip_on_sentinel_free_values _ rfl⟩

/-- Claim C4: a synchronous `rhai_eval` of a script that invokes a
registered function returning a Pending outcome fails with -1 and the
distinct misuse message directing to evalAsync, whatever the engine
outcome; the sync callback path returns the error immediately instead of
registering a wait, so nothing blocks. -/
theorem c4_sync_eval_of_pending_is_misuse (responses : List CallbackResponse)
    (outcome : EngineOutcome) (ts : ThreadState)
    (hp : ∃ r ∈ responses, r.status = "pending") :
    (rhai_eval responses outcome ts).2.ret = -1 ∧
    (rhai_eval responses outcome ts).2.lastError = some misuseErrorMsg := by
  have hany : responses.any (fun r => decide (r.status = "pending")) = true := by
    rcases hp with ⟨r, hr, hrs⟩
    exact List.any_eq_true.mpr ⟨r, hr, by simp [hrs]⟩
  have hflag : (run_script_callbacks responses ts).asyncFunctionInvoked = true := by
    simp [run_script_callbacks_flag, hany]
  constructor <;> simp [rhai_eval, check_and_clear_async_flag, hflag]

/-- Witness for C4: one Pending response, script value 21·2 notwithstanding. -/
theorem c4_sync_eval_of_pending_is_misuse_witness :
    (rhai_eval
        [{ status := "pending", future_id := some 7, value := none,
           value_json := none, error := none }]
        (.ok (.int 42)) { asyncFunctionInvoked := false, inAsyncEval := false }).2.ret
      = -1 ∧
    (rhai_eval
        [{ status := "pending", future_id := some 7, value := none,
           value_json := none, error := none }]
        (.ok (.int 42))
        { asyncFunctionInvoked := false, inAsyncEval := false }).2.lastError
      = some misuseErrorMsg :=
  c4_sync_eval_of_pending_is_misuse _ _ _
    ⟨{ status := "pending", future_id := some 7, value := none,
       value_json := none, error := none }, by simp, rfl⟩

/-- Claim C5: when the wait for a pending future or a queued cross-thread
request times out, the waiter gets the timeout error string, the registry
entry is removed before the error surfaces, and a subsequent
complete/deliver on that id returns -1 (NotFound) instead of corrupting
state. -/
theorem c5_timeout_removes_entry_then_not_found (st : GlobalState)
    (future_id request_id : Int) (secs : Nat) (s1 s2 : String)
    (hf : lookupA st.pendingFutures future_id = some true)
    (hr : lookupA st.functionResponseChannels request_id = some true) :
    (invoke_dart_callback_async_timeout future_id secs st).2
      = "Async operation timed out after " ++ toString secs ++ " seconds" ∧
    lookupA (invoke_dart_callback_async_timeout future_id secs st).1.pendingFutures
        future_id = none ∧
    (rhai_complete_future future_id (some s1)
        (invoke_dart_callback_async_timeout future_id secs st).1).2 = -1 ∧
    (request_dart_function_execution_timeout request_id st).2
      = "Function call timed out after 30 seconds" ∧
    lookupA (request_dart_function_execution_timeout request_id
        st).1.functionResponseChannels request_id = none ∧
    (rhai_provide_function_result request_id (some s2)
        (request_dart_function_execution_timeout request_id st).1).2 = -1 := by
  refine ⟨rfl, ?_, ?_, rfl, ?_, ?_⟩ <;>
    simp [invoke_dart_callback_async_timeout, request_dart_function_execution_timeout,
      rhai_complete_future, rhai_provide_function_result, lookupA_removeA_self]

/-- Witness for C5 at a concrete registry state. -/
theorem c5_timeout_removes_entry_then_not_found_witness :
    (invoke_dart_callback_async_timeout 5 30 ⟨[], [(9, true)], [], [(5, true)], 1, 1⟩).2
      = "Async operation timed out after " ++ toString 30 ++ " seconds" ∧
    lookupA (invoke_dart_callback_async_timeout 5 30
        ⟨[], [(9, true)], [], [(5, true)], 1, 1⟩).1.pendingFutures 5 = none ∧
    (rhai_complete_future 5 (some "late")
        (invoke_dart_callback_async_timeout 5 30
          ⟨[], [(9, true)], [], [(5, true)], 1, 1⟩).1).2 = -1 ∧
    (request_dart_function_execution_timeout 9
        ⟨[], [(9, true)], [], [(5, true)], 1, 1⟩).2
      = "Function call timed out after 30 seconds" ∧
    lookupA (request_dart_function_execution_timeout 9
        ⟨[], [(9, true)], [], [(5, true)], 1, 1⟩).1.functionResponseChannels 9
      = none ∧
    (rhai_provide_function_result 9 (some "late")
        (request_dart_function_execution_timeout 9
          ⟨[], [(9, true)], [], [(5, true)], 1, 1⟩).1).2 = -1 :=
  c5_timeout_removes_entry_then_not_found _ 5 9 30 "late" "late" rfl rfl

/-- Claim C6: delivering a completion — `rhai_complete_future` for pending
futures, `rhai_provide_function_result` for queued requests — succeeds
exactly once on a registered id whose waiter is still listening, removing
the entry; a second delivery on the same id, or a delivery on an id never
registered, returns -1. -/
theorem c6_delivery_succeeds_exactly_once (st : GlobalState)
    (fid fnever qid qnever : Int) (s1 s2 s3 s4 : String)
    (hf : lookupA st.pendingFutures fid = some true)
    (hfn : lookupA st.pendingFutures fnever = none)
    (hq : lookupA st.functionResponseChannels qid = some true)
    (hqn : lookupA st.functionResponseChannels qnever = none) :
    (rhai_complete_future fid (some s1) st).2 = 0 ∧
    lookupA (rhai_complete_future fid (some s1) st).1.pendingFutures fid = none ∧
    (rhai_complete_future fid (some s2)
        (rhai_complete_future fid (some s1) st).1).2 = -1 ∧
    (rhai_complete_future fnever (some s3) st).2 = -1 ∧
    (rhai_provide_function_result qid (some s1) st).2 = 0 ∧
    lookupA (rhai_provide_function_result qid (some s1)
        st).1.functionResponseChannels qid = none ∧
    (rhai_provide_function_result qid (some s2)
        (rhai_provide_function_result qid (some s1) st).1).2 = -1 ∧
    (rhai_provide_function_result qnever (some s4) st).2 = -1 := by
  refine ⟨?_, ?_, ?_, ?_, ?_, ?_, ?_, ?_⟩ <;>
    simp [rhai_complete_future, rhai_provide_function_result, hf, hfn, hq, hqn,
      lookupA_removeA_self]

/-- Witness for C6 at a concrete registry state. -/
theorem c6_delivery_succeeds_exactly_once_witness :
    (rhai_complete_future 5 (some "a") ⟨[], [(9, true)], [], [(5, true)], 1, 1⟩).2
      = 0 ∧
    lookupA (rhai_complete_future 5 (some "a")
        ⟨[], [(9, true)], [], [(5, true)], 1, 1⟩).1.pendingFutures 5 = none ∧
    (rhai_complete_future 5 (some "b")
        (rhai_complete_future 5 (some "a")
          ⟨[], [(9, true)], [], [(5, true)], 1, 1⟩).1).2 = -1 ∧
    (rhai_complete_future 6 (some "c")
        ⟨[], [(9, true)], [], [(5, true)], 1, 1⟩).2 = -1 ∧
    (rhai_provide_function_result 9 (some "a")
        ⟨[], [(9, true)], [], [(5, true)], 1, 1⟩).2 = 0 ∧
    lookupA (rhai_provide_function_result 9 (some "a")
        ⟨[], [(9, true)], [], [(5, true)], 1, 1⟩).1.functionResponseChannels 9
      = none ∧
    (rhai_provide_function_result 9 (some "b")
        (rhai_provide_function_result 9 (some "a")
          ⟨[], [(9, true)], [], [(5, true)], 1, 1⟩).1).2 = -1 ∧
    (rhai_provide_function_result 10 (some "d")
        ⟨[], [(9, true)], [], [(5, true)], 1, 1⟩).2 = -1 :=
  c6_delivery_succeeds_exactly_once _ 5 6 9 10 "a" "b" "c" "d" rfl rfl rfl rfl

/-- Claim C7, counterexample: a terminal Error entry whose message contains
an interior NUL byte — reachable, since the host can deliver the JSON text
"\u0000", the script can throw the decoded string, and `format_rhai_error`
embeds the thrown message — makes `CString::new` fail in the Error arm of
`rhai_eval_async_poll`, which then returns -1 and leaves the entry in the
registry: the terminal status is not returned (let alone exactly once), the
entry is not removed, and every retry repeats this. -/
theorem c7_nul_error_payload_never_retrieved :
    (rhai_eval_async_poll 3
        ⟨[], [], [(3, .error ("Runtime error at line 1: "
          ++ String.mk [Char.ofNat 0]))], [], 1, 4⟩).2
      = { ret := -1, status := some 2, result := none } ∧
    (rhai_eval_async_poll 3
        ⟨[], [], [(3, .error ("Runtime error at line 1: "
          ++ String.mk [Char.ofNat 0]))], [], 1, 4⟩).1
      = ⟨[], [], [(3, .error ("Runtime error at line 1: "
          ++ String.mk [Char.ofNat 0]))], [], 1, 4⟩ := by
  decide

/-- Claim C7 as amended: polling an evaluation whose status is terminal and
whose payload contains no interior NUL byte — always true of Success
payloads, which are serde_json output — returns code 0 with that terminal
status (1 = Success, 2 = Error) and its payload, and removes the registry
entry; a second poll of the same id returns -1 (NotFound), and the terminal
status is never rewritten before retrieval, the only writer being the
single spawned thread for that unique id, which writes once.  A terminal
Error message holding an interior NUL is instead never retrieved: each poll
writes status 2 but returns -1 and leaves the entry in place. -/
theorem c7_terminal_poll_retrieves_exactly_once (st : GlobalState)
    (eval_id : Int) (r : AsyncEvalResult)
    (h : lookupA st.asyncEvalResults eval_id = some r)
    (hterm : r ≠ .inProgress)
    (hnul : terminalPayloadNulFree r = true) :
    rhai_eval_async_poll eval_id st
      = ({ st with asyncEvalResults := removeA st.asyncEvalResults eval_id },
         { ret := 0, status := some (pollStatusCode r), result := pollPayload r }) ∧
    (rhai_eval_async_poll eval_id (rhai_eval_async_poll eval_id st).1).2
      = { ret := -1, status := none, result := none } := by
  cases r with
  | inProgress => exact absurd rfl hterm
  | success json =>
      have hn : containsNul json = false := by
        simpa [terminalPayloadNulFree] using hnul
      constructor <;>
        simp [rhai_eval_async_poll, h, hn, pollStatusCode, pollPayload,
          lookupA_removeA_self]
  | error msg =>
      have hn : containsNul msg = false := by
        simpa [terminalPayloadNulFree] using hnul
      constructor <;>
        simp [rhai_eval_async_poll, h, hn, pollStatusCode, pollPayload,
          lookupA_removeA_self]

/-- Witness for the amended C7 on a registry holding a Success entry. -/
theorem c7_terminal_poll_retrieves_exactly_once_witness :
    rhai_eval_async_poll 3 ⟨[], [], [(3, .success "7")], [], 1, 4⟩
      = ({ pendingFunctionRequests := [], functionResponseChannels := [],
           asyncEvalResults := removeA [(3, .success "7")] 3, pendingFutures := [],
           nextRequestId := 1, nextAsyncEvalId := 4 },
         { ret := 0, status := some (pollStatusCode (.success "7")),
           result := pollPayload (.success "7") }) ∧
    (rhai_eval_async_poll 3
        (rhai_eval_async_poll 3 ⟨[], [], [(3, .success "7")], [], 1, 4⟩).1).2
      = { ret := -1, status := none, result := none } :=
  c7_terminal_poll_retrieves_exactly_once _ 3 (.success "7") rfl (by decide)
    (by decide)

/-- Claim C8: the cross-thread request queue is strictly FIFO — after
enqueuing R1 and then R2 (each `push_back` is atomic under the queue mutex,
so "R1 before R2" is exactly this composition regardless of which threads
ran them), repeatedly calling the non-blocking dequeue drains any earlier
backlog and then surfaces R1 strictly before R2, with no reordering. -/
theorem c8_request_queue_fifo (st : GlobalState) (f1 a1 f2 a2 : String) :
    drainQueue (request_dart_function_execution_enqueue f2 a2
        (request_dart_function_execution_enqueue f1 a1 st).1).1
      = st.pendingFunctionRequests ++
        [{ exec_id := (request_dart_function_execution_enqueue f1 a1 st).2,
           function_name := f1, args_json := a1 },
         { exec_id := (request_dart_function_execution_enqueue f2 a2
              (request_dart_function_execution_enqueue f1 a1 st).1).2,
           function_name := f2, args_json := a2 }] := by
  simp [drainQueue_eq, request_dart_function_execution_enqueue]

/-- Claim C9: if any callback during a synchronous eval reports "pending",
`rhai_eval` returns -1 with the misuse error even when the engine outcome is
a successful value (the script caught the call error), and the per-thread
flag is cleared by the check, so a next evaluation on the same thread with
no pending callbacks succeeds normally. -/
theorem c9_misuse_overrides_success_and_flag_clears
    (responses responses2 : List CallbackResponse) (v v2 : RhaiValue)
    (ts : ThreadState)
    (hp : ∃ r ∈ responses, r.status = "pending")
    (hq : ∀ r ∈ responses2, r.status ≠ "pending") :
    (rhai_eval responses (.ok v) ts).2.ret = -1 ∧
    (rhai_eval responses (.ok v) ts).2.lastError = some misuseErrorMsg ∧
    ((rhai_eval responses (.ok v) ts).1).asyncFunctionInvoked = false ∧
    (rhai_eval responses2 (.ok v2) (rhai_eval responses (.ok v) ts).1).2.ret = 0 ∧
    (rhai_eval responses2 (.ok v2) (rhai_eval responses (.ok v) ts).1).2.result
      = some (dynamic_to_json_value v2) := by
  have hany : responses.any (fun r => decide (r.status = "pending")) = true := by
    rcases hp with ⟨r, hr, hrs⟩
    exact List.any_eq_true.mpr ⟨r, hr, by simp [hrs]⟩
  have hflag : (run_script_callbacks responses ts).asyncFunctionInvoked = true := by
    simp [run_script_callbacks_flag, hany]
  have hany2 : responses2.any (fun r => decide (r.status = "pending")) = false := by
    rw [List.any_eq_false]
    intro r hr
    simp [hq r hr]
  have hclear := rhai_eval_clears_flag responses (.ok v) ts
  have hsecond : ∀ ts0 : ThreadState, ts0.asyncFunctionInvoked = false →
      (rhai_eval responses2 (.ok v2) ts0).2.ret = 0 ∧
      (rhai_eval responses2 (.ok v2) ts0).2.result
        = some (dynamic_to_json_value v2) := by
    intro ts0 h0
    have hflag2 : (run_script_callbacks responses2 ts0).asyncFunctionInvoked
        = false := by
      simp [run_script_callbacks_flag, h0, hany2]
    constructor <;> simp [rhai_eval, check_and_clear_async_flag, hflag2]
  refine ⟨?_, ?_, hclear, (hsecond _ hclear).1, (hsecond _ hclear).2⟩ <;>
    simp [rhai_eval, check_and_clear_async_flag, hflag]

/-- Witness for C9: a pending callback with an engine value of 42, then a
clean second evaluation returning 5. -/
theorem c9_misuse_overrides_success_and_flag_clears_witness :
    (rhai_eval
        [{ status := "pending", future_id := some 7, value := none,
           value_json := none, error := none }]
        (.ok (.int 42)) { asyncFunctionInvoked := false, inAsyncEval := false }).2.ret
      = -1 ∧
    (rhai_eval
        [{ status := "pending", future_id := some 7, value := none,
           value_json := none, error := none }]
        (.ok (.int 42))
        { asyncFunctionInvoked := false, inAsyncEval := false }).2.lastError
      = some misuseErrorMsg ∧
    ((rhai_eval
        [{ status := "pending", future_id := some 7, value := none,
           value_json := none, error := none }]
        (.ok (.int 42))
        { asyncFunctionInvoked := false,
          inAsyncEval := false }).1).asyncFunctionInvoked = false ∧
    (rhai_eval
        [{ status := "success", future_id := none, value := some (.num (.int 1)),
           value_json := none, error := none }]
        (.ok (.int 5))
        (rhai_eval
          [{ status := "pending", future_id := some 7, value := none,
             value_json := none, error := none }]
          (.ok (.int 42))
          { asyncFunctionInvoked := false, inAsyncEval := false }).1).2.ret = 0 ∧
    (rhai_eval
        [{ status := "success", future_id := none, value := some (.num (.int 1)),
           value_json := none, error := none }]
        (.ok (.int 5))
        (rhai_eval
          [{ status := "pending", future_id := some 7, value := none,
             value_json := none, error := none }]
          (.ok (.int 42))
          { asyncFunctionInvoked := false, inAsyncEval := false }).1).2.result
      = some (dynamic_to_json_value (.int 5)) :=
  c9_misuse_overrides_success_and_flag_clears _ _ _ _ _
    ⟨{ status := "pending", future_id := some 7, value := none,
       value_json := none, error := none }, by simp, rfl⟩
    (by
      intro r hr
      simp only [List.mem_singleton] at hr
      rw [hr]
      decide)

/-- Claim C10: `rhai_complete_future` with a valid (non-null) result string
on a registered id removes the entry whether or not the send succeeds; when
the waiting receiver was already dropped it returns -1, and a retry on the
same id returns -1 (NotFound) — the completion attempt is consumed exactly
once either way. -/
theorem c10_completion_consumed_even_when_send_fails (st : GlobalState)
    (future_id : Int) (s1 s2 : String) (alive : Bool)
    (h : lookupA st.pendingFutures future_id = some alive) :
    lookupA (rhai_complete_future future_id (some s1)
        st).1.pendingFutures future_id = none ∧
    (alive = false → (rhai_complete_future future_id (some s1) st).2 = -1) ∧
    (rhai_complete_future future_id (some s2)
        (rhai_complete_future future_id (some s1) st).1).2 = -1 := by
  cases alive <;> simp [rhai_complete_future, h, lookupA_removeA_self]

/-- Witness for C10 on a registry whose receiver is already dropped. -/
theorem c10_completion_consumed_even_when_send_fails_witness :
    lookupA (rhai_complete_future 5 (some "a")
        ⟨[], [], [], [(5, false)], 1, 1⟩).1.pendingFutures 5 = none ∧
    (false = false →
      (rhai_complete_future 5 (some "a") ⟨[], [], [], [(5, false)], 1, 1⟩).2 = -1) ∧
    (rhai_complete_future 5 (some "b")
        (rhai_complete_future 5 (some "a")
          ⟨[], [], [], [(5, false)], 1, 1⟩).1).2 = -1 :=
  c10_completion_consumed_even_when_send_fails _ 5 "a" "b" false rfl

end RhaiDart
